import Mathlib

/-!
Shallow embedding of `src/main.c` of sebbekarlsson/fontgl: a GLFW/OpenGL
program that rasterizes one FreeType glyph into a texture and draws a
single quad each frame.  External library calls (GLFW, OpenGL, FreeType,
cglm) are modelled by explicit state passing: the OpenGL texture/binding
state and clear-color state are records, FreeType's rasterization result
is an oracle record, and cglm's matrix helpers are translated from their
(well-known, header-only) definitions since the program's behavior goes
through them.  Floats are modelled as rationals.
-/

namespace Fontgl

/-! ## GLFW constants (from GLFW3 headers) -/

def GLFW_KEY_ESCAPE : Int := 256
def GLFW_PRESS : Int := 1
def GLFW_RELEASE : Int := 0
def GLFW_REPEAT : Int := 2

/-! ## key_callback (src/main.c lines 22-26)

The C callback sets the window's should-close flag to GLFW_TRUE when the
key is escape and the action is a press; the window is modelled by its
should-close flag (a `Bool`). -/

def key_callback (shouldClose : Bool) (key : Int) (_scancode : Int)
    (action : Int) (_mods : Int) : Bool :=
  if key = GLFW_KEY_ESCAPE ∧ action = GLFW_PRESS then true else shouldClose

/-! ## The frame loop as an event-driven state machine (src/main.c 260-294)

Each iteration draws one frame and then calls `glfwPollEvents`, which drains
the queued events, invoking `key_callback` for key events and setting the
should-close flag for external window-close requests.  The loop condition
`!glfwWindowShouldClose(window)` is checked before each frame.  A run is
modelled over a trace of event batches, one batch per `glfwPollEvents`. -/

inductive GlfwEvent where
  | closeRequest : GlfwEvent
  | keyEvent (key scancode action mods : Int) : GlfwEvent

/-- Effect of `glfwPollEvents` on the should-close flag: deliver each queued
event in order; a window-close request sets the flag, a key event goes
through `key_callback`. -/
def pollEvents (shouldClose : Bool) (batch : List GlfwEvent) : Bool :=
  batch.foldl
    (fun sc e =>
      match e with
      | .closeRequest => true
      | .keyEvent k s a m => key_callback sc k s a m)
    shouldClose

/-- Spec-side description of the events that request closure: an external
window-close request, or an escape key press. -/
def isCloseTrigger : GlfwEvent → Bool
  | .closeRequest => true
  | .keyEvent k _ a _ => decide (k = GLFW_KEY_ESCAPE ∧ a = GLFW_PRESS)

/-- Number of frames drawn by the `while (!glfwWindowShouldClose(window))`
loop across a trace of event batches, starting from a given should-close
flag: while the flag is unset, one frame is drawn, then one batch is
polled. -/
def framesDrawn : Bool → List (List GlfwEvent) → Nat
  | true, _ => 0
  | false, [] => 0
  | false, b :: bs => 1 + framesDrawn (pollEvents false b) bs

/-- Index of the first event batch containing a close trigger, if any. -/
def firstTrigger : List (List GlfwEvent) → Option Nat
  | [] => none
  | b :: bs =>
    if b.any isCloseTrigger then some 0 else (firstTrigger bs).map (· + 1)

lemma pollEvents_eq_or (batch : List GlfwEvent) :
    ∀ sc : Bool, pollEvents sc batch = (sc || batch.any isCloseTrigger) := by
  induction batch with
  | nil => intro sc; simp [pollEvents]
  | cons e rest ih =>
    intro sc
    cases e with
    | closeRequest =>
      show pollEvents true rest = _
      rw [ih true]
      simp [isCloseTrigger]
    | keyEvent k s a m =>
      show pollEvents (key_callback sc k s a m) rest = _
      rw [ih]
      by_cases h : k = GLFW_KEY_ESCAPE ∧ a = GLFW_PRESS
      · simp [key_callback, isCloseTrigger, h]
      · simp [key_callback, isCloseTrigger, h]

/-- C10: the key callback leaves the should-close flag unchanged for every
key event that is not an escape press. -/
theorem key_callback_only_escape_press (sc : Bool) (key scancode action mods : Int)
    (h : key ≠ GLFW_KEY_ESCAPE ∨ action ≠ GLFW_PRESS) :
    key_callback sc key scancode action mods = sc := by
  unfold key_callback
  rcases h with h | h <;> simp [h]

/-- Witness for `key_callback_only_escape_press`: an escape-key release
(action `GLFW_RELEASE`) leaves the flag unchanged. -/
theorem key_callback_only_escape_press_witness :
    ((256 : Int) ≠ GLFW_KEY_ESCAPE ∨ (0 : Int) ≠ GLFW_PRESS) ∧
      key_callback false 256 30 0 0 = false := by
  refine ⟨Or.inr (by decide), ?_⟩
  exact key_callback_only_escape_press false 256 30 0 0 (Or.inr (by decide))

/-- C4: the frame loop is a two-state machine.  (1) Polling flips the
should-close flag exactly when the drained batch contains a window-close
request or an escape key press, and never clears it.  (2) In the Closing
state no frame is drawn.  (3) From the Running state, the number of frames
drawn over a trace is `i + 1` where `i` is the index of the first batch
with a close trigger (the transition happens there and the loop stops), and
if no batch triggers, every batch of the trace is preceded by a drawn
frame and the loop is still running. -/
theorem frame_loop_two_state :
    (∀ (sc : Bool) (batch : List GlfwEvent),
        pollEvents sc batch = (sc || batch.any isCloseTrigger)) ∧
    (∀ bs : List (List GlfwEvent), framesDrawn true bs = 0) ∧
    (∀ bs : List (List GlfwEvent),
        framesDrawn false bs =
          match firstTrigger bs with
          | some i => i + 1
          | none => bs.length) := by
  refine ⟨fun sc batch => pollEvents_eq_or batch sc, fun bs => by cases bs <;> rfl, ?_⟩
  intro bs
  induction bs with
  | nil => rfl
  | cons b bs ih =>
    by_cases h : b.any isCloseTrigger
    · have hp : pollEvents false b = true := by rw [pollEvents_eq_or]; simp [h]
      show 1 + framesDrawn (pollEvents false b) bs = _
      rw [hp]
      have hz : framesDrawn true bs = 0 := by cases bs <;> rfl
      rw [hz]
      simp [firstTrigger, h]
    · have hp : pollEvents false b = false := by rw [pollEvents_eq_or]; simp [h]
      show 1 + framesDrawn (pollEvents false b) bs = _
      rw [hp, ih]
      simp only [firstTrigger, h]
      cases hft : firstTrigger bs <;>
        simp [hft, List.length_cons, Nat.add_comm]

/-! ## OpenGL constants (from GL headers) -/

def GL_TEXTURE_2D : Nat := 0x0DE1
def GL_RED : Nat := 0x1903
def GL_REPEAT : Nat := 0x2901
def GL_NEAREST : Nat := 0x2600
def GL_NEAREST_MIPMAP_LINEAR : Nat := 0x2702
def GL_LINEAR : Nat := 0x2601
def GL_TEXTURE_WRAP_S : Nat := 0x2802
def GL_TEXTURE_WRAP_T : Nat := 0x2803
def GL_TEXTURE_MIN_FILTER : Nat := 0x2801
def GL_TEXTURE_MAG_FILTER : Nat := 0x2800
def GL_UNPACK_ALIGNMENT : Nat := 0x0CF5

/-! ## OpenGL texture-object state

Only the state `get_character` touches is modelled: the pixel-store unpack
alignment, the texture name bound to the `GL_TEXTURE_2D` target of the
active unit (unit 0 throughout the program), and the list of existing
texture objects with the fields the program sets. -/

structure TexObject where
  id : Nat
  internalFormat : Nat
  width : Nat
  height : Nat
  wrapS : Nat
  wrapT : Nat
  minFilter : Nat
  magFilter : Nat
deriving DecidableEq, Repr

/-- A freshly created texture object carries the OpenGL initial values:
repeat wrapping, `GL_NEAREST_MIPMAP_LINEAR`/`GL_LINEAR` filtering, and no
image (dimensions 0, internal format 0 here standing for uninitialized). -/
def initialTexObject (t : Nat) : TexObject :=
  ⟨t, 0, 0, 0, GL_REPEAT, GL_REPEAT, GL_NEAREST_MIPMAP_LINEAR, GL_LINEAR⟩

structure GLState where
  nextTexId : Nat
  bound2D : Nat
  textures : List TexObject
  unpackAlignment : Nat
deriving DecidableEq, Repr

/-- `glPixelStorei(GL_UNPACK_ALIGNMENT, n)`. -/
def glPixelStorei (s : GLState) (n : Nat) : GLState :=
  { s with unpackAlignment := n }

/-- `glGenTextures(1, &texture)`: hand out the next unused texture name. -/
def glGenTexture (s : GLState) : GLState × Nat :=
  ({ s with nextTexId := s.nextTexId + 1 }, s.nextTexId)

/-- `glBindTexture(GL_TEXTURE_2D, t)`: bind `t` to the 2D target; binding a
yet-unseen nonzero name creates the texture object with initial state. -/
def glBindTexture2D (s : GLState) (t : Nat) : GLState :=
  if t = 0 ∨ s.textures.any (fun o => o.id = t) then
    { s with bound2D := t }
  else
    { s with bound2D := t, textures := s.textures ++ [initialTexObject t] }

/-- Apply `f` to the texture object currently bound to the 2D target. -/
def updateBound (s : GLState) (f : TexObject → TexObject) : GLState :=
  { s with
    textures := s.textures.map (fun o => if o.id = s.bound2D then f o else o) }

/-- `glTexImage2D(GL_TEXTURE_2D, 0, ifmt, w, h, 0, fmt, type, data)`:
define the bound texture's image. -/
def glTexImage2D (s : GLState) (ifmt w h : Nat) : GLState :=
  updateBound s (fun o => { o with internalFormat := ifmt, width := w, height := h })

/-- `glTexParameteri(GL_TEXTURE_2D, pname, v)` for the four parameters the
program sets. -/
def glTexParameteri (s : GLState) (pname v : Nat) : GLState :=
  updateBound s (fun o =>
    if pname = GL_TEXTURE_WRAP_S then { o with wrapS := v }
    else if pname = GL_TEXTURE_WRAP_T then { o with wrapT := v }
    else if pname = GL_TEXTURE_MIN_FILTER then { o with minFilter := v }
    else if pname = GL_TEXTURE_MAG_FILTER then { o with magFilter := v }
    else o)

/-! ## FreeType oracle and the character record (src/main.c 28-96) -/

/-- What the FreeType calls in `get_character` observably do for the given
character, font file, and pixel size: whether `FT_Init_FreeType`,
`FT_New_Face`, and `FT_Load_Char` report an error, and the glyph slot data
read afterwards (`bitmap.width`, `bitmap.rows`, `bitmap_left`,
`bitmap_top`, `advance.x`). -/
structure FTOutcome where
  initFails : Bool
  faceFails : Bool
  loadFails : Bool
  bitmapWidth : Nat
  bitmapRows : Nat
  bitmapLeft : Int
  bitmapTop : Int
  advanceX : Nat

/-- `struct CHARACTER_STRUCT` from src/main.c lines 28-37.  `size` is the
`vec2` field, `texture` and `advance` are `GLuint`, the rest are `float`
(modelled as rationals). -/
structure character_T where
  texture : Nat
  size : ℚ × ℚ
  width : ℚ
  height : ℚ
  bearing_left : ℚ
  bearing_top : ℚ
  advance : Nat
deriving DecidableEq, Repr

/-- `calloc(1, sizeof(struct CHARACTER_STRUCT))`: all fields zeroed. -/
def callocCharacter : character_T :=
  ⟨0, (0, 0), 0, 0, 0, 0, 0⟩

/-- `get_character` (src/main.c lines 39-96), translated call by call.
`ft` is the FreeType oracle for the requested character; the result is the
final GL state, the list of `perror` messages emitted, and the returned
`character_T`.  Each `FT_*` failure only `perror`s — execution continues. -/
def get_character (ft : FTOutcome) (s0 : GLState) :
    GLState × List String × character_T :=
  let errs0 :=
    if ft.initFails then ["ERROR::FREETYPE: Could not init FreeType Library"] else []
  let errs1 :=
    errs0 ++ (if ft.faceFails then ["ERROR::FREETYPE: Failed to load font"] else [])
  let s1 := glPixelStorei s0 1
  let errs2 :=
    errs1 ++ (if ft.loadFails then ["ERROR::FREETYTPE: Failed to load Glyph"] else [])
  let gen := glGenTexture s1
  let texture := gen.2
  let s2 := glBindTexture2D gen.1 texture
  let s3 := glTexImage2D s2 GL_RED ft.bitmapWidth ft.bitmapRows
  let s4 := glTexParameteri s3 GL_TEXTURE_WRAP_S GL_REPEAT
  let s5 := glTexParameteri s4 GL_TEXTURE_WRAP_T GL_REPEAT
  let s6 := glTexParameteri s5 GL_TEXTURE_MIN_FILTER GL_NEAREST
  let s7 := glTexParameteri s6 GL_TEXTURE_MAG_FILTER GL_NEAREST
  let character : character_T :=
    { callocCharacter with
      texture := texture
      width := (ft.bitmapWidth : ℚ)
      height := (ft.bitmapRows : ℚ)
      bearing_left := (ft.bitmapLeft : ℚ)
      bearing_top := (ft.bitmapTop : ℚ)
      advance := ft.advanceX }
  let s8 := glBindTexture2D s7 0
  (s8, errs2, character)

lemma map_keep_of_ne (t : Nat) (f : TexObject → TexObject) (l : List TexObject)
    (h : ∀ o ∈ l, o.id ≠ t) :
    l.map (fun o => if o.id = t then f o else o) = l := by
  induction l with
  | nil => rfl
  | cons a as ih =>
    simp only [List.map_cons, if_neg (h a (List.mem_cons_self a as))]
    rw [ih (fun o ho => h o (List.mem_cons_of_mem a ho))]

/-- C7: `get_character` allocates exactly one texture object, whose image is
single-channel `GL_RED` with the bitmap's width and rows, with both wrap
modes `GL_REPEAT` and both filters `GL_NEAREST`; on return the 2D target is
rebound to 0, and the generated handle is stored in the returned record and
still exists in the final GL state.  The hypotheses say the GL name counter
is in its invariant state: names it hands out are nonzero and unused. -/
theorem get_character_texture_spec (ft : FTOutcome) (s0 : GLState)
    (h0 : s0.nextTexId ≠ 0)
    (hfresh : ∀ o ∈ s0.textures, o.id < s0.nextTexId) :
    (get_character ft s0).1.textures =
        s0.textures ++
          [{ id := s0.nextTexId, internalFormat := GL_RED,
             width := ft.bitmapWidth, height := ft.bitmapRows,
             wrapS := GL_REPEAT, wrapT := GL_REPEAT,
             minFilter := GL_NEAREST, magFilter := GL_NEAREST }] ∧
      (get_character ft s0).1.bound2D = 0 ∧
      (get_character ft s0).2.2.texture = s0.nextTexId := by
  obtain ⟨n, b, l, u⟩ := s0
  simp only at h0 hfresh
  have hne : ∀ o ∈ l, o.id ≠ n := fun o ho => Nat.ne_of_lt (hfresh o ho)
  have hany : l.any (fun o => o.id = n) = false := by
    simp only [List.any_eq_false, decide_eq_true_eq]
    exact hne
  refine ⟨?_, ?_, ?_⟩ <;>
    simp [get_character, glPixelStorei, glGenTexture, glBindTexture2D,
      glTexImage2D, glTexParameteri, updateBound, initialTexObject,
      GL_TEXTURE_WRAP_S, GL_TEXTURE_WRAP_T, GL_TEXTURE_MIN_FILTER,
      GL_TEXTURE_MAG_FILTER, h0, hany, -List.map_map]
  rw [map_keep_of_ne n _ l hne, map_keep_of_ne n _ l hne,
    map_keep_of_ne n _ l hne, map_keep_of_ne n _ l hne,
    map_keep_of_ne n _ l hne]

/-- Witness for `get_character_texture_spec` at a concrete oracle and a
fresh GL state. -/
theorem get_character_texture_spec_witness :
    ((1 : Nat) ≠ 0 ∧ ∀ o ∈ ([] : List TexObject), o.id < 1) ∧
      (get_character ⟨false, false, false, 12, 18, 1, 17, 160⟩
          ⟨1, 0, [], 4⟩).1.bound2D = 0 :=
  ⟨⟨by decide, by simp⟩,
    (get_character_texture_spec ⟨false, false, false, 12, 18, 1, 17, 160⟩
        ⟨1, 0, [], 4⟩ (by decide) (by simp)).2.1⟩

/-- C8: the width and height fields of the returned record are determined
by the FreeType outcome for (character, font, pixel size) alone — two runs
from any two GL states agree on them. -/
theorem get_character_deterministic_dims (ft : FTOutcome) (s1 s2 : GLState) :
    (get_character ft s1).2.2.width = (get_character ft s2).2.2.width ∧
      (get_character ft s1).2.2.height = (get_character ft s2).2.2.height :=
  ⟨rfl, rfl⟩

/-- C9: the `size` field of the returned record keeps its calloc
zero-initialization `(0, 0)` for every oracle and GL state, even when the
bitmap dimensions are nonzero. -/
theorem get_character_size_never_assigned (ft : FTOutcome) (s : GLState) :
    (get_character ft s).2.2.size = (0, 0) :=
  rfl

/-- A FreeType oracle where `FT_Init_FreeType` fails (returns nonzero). -/
def ftInitFailure : FTOutcome := ⟨true, false, false, 12, 18, 1, 17, 160⟩

/-- The GL state at the program's single call site of `get_character`. -/
def glFreshState : GLState := ⟨1, 0, [], 4⟩

/-- C1 (code bug evaluation): when the font-library initialization fails,
`get_character` only `perror`s and continues: it still creates and
configures a texture and returns a populated record, rather than aborting. -/
theorem get_character_continues_past_init_failure :
    get_character ftInitFailure glFreshState =
      (⟨2, 0, [⟨1, GL_RED, 12, 18, GL_REPEAT, GL_REPEAT, GL_NEAREST, GL_NEAREST⟩], 1⟩,
        ["ERROR::FREETYPE: Could not init FreeType Library"],
        ⟨1, (0, 0), 12, 18, 1, 17, 160⟩) := by
  decide

/-! ## Clear-color state of the frame loop (src/main.c 262-268)

Each iteration executes `glClear(GL_COLOR_BUFFER_BIT)` and then
`glClearColor(0.2f, 0.4f, 0.2f, 1.0f)` — in that order.  `glClear` uses
the clear color currently in effect; the OpenGL initial clear color is
`(0, 0, 0, 0)`. -/

def RGBA := ℚ × ℚ × ℚ × ℚ
deriving DecidableEq

/-- The color passed to `glClearColor` in the loop body. -/
def backgroundColor : RGBA := (1/5, 2/5, 1/5, 1)

/-- OpenGL's initial clear-color state. -/
def glDefaultClearColor : RGBA := (0, 0, 0, 0)

/-- One loop iteration's effect on the clear-color state: returns the new
state together with the color `glClear` consumed this iteration.  The
`glClearColor` call comes after the `glClear` call in the body. -/
def frameClearStep (clearColor : RGBA) : RGBA × RGBA :=
  let used := clearColor
  let clearColor' := backgroundColor
  (clearColor', used)

/-- The colors used by `glClear` over the first `n` iterations, starting
from clear-color state `c`. -/
def clearsUsed : Nat → RGBA → List RGBA
  | 0, _ => []
  | n + 1, c =>
    let step := frameClearStep c
    step.2 :: clearsUsed n step.1

/-- C2 counterexample: on the very first iteration the color buffer is
cleared with the OpenGL default clear color, not with (0.2, 0.4, 0.2, 1.0),
because `glClearColor` runs only after `glClear` in the loop body. -/
theorem first_clear_not_background :
    clearsUsed 1 glDefaultClearColor ≠ [backgroundColor] := by
  intro h
  simp only [clearsUsed, frameClearStep, glDefaultClearColor, backgroundColor,
    List.cons.injEq] at h
  exact absurd (congrArg Prod.fst h.1) (by norm_num)

/-- C2 amended: the first `glClear` uses the default clear color
`(0, 0, 0, 0)`; every later iteration clears with (0.2, 0.4, 0.2, 1.0). -/
theorem clear_color_per_iteration (n : Nat) :
    clearsUsed n glDefaultClearColor =
      match n with
      | 0 => []
      | m + 1 => glDefaultClearColor :: List.replicate m backgroundColor := by
  have hbg : ∀ m : Nat, clearsUsed m backgroundColor = List.replicate m backgroundColor := by
    intro m
    induction m with
    | zero => rfl
    | succ k ih => simp [clearsUsed, frameClearStep, ih, List.replicate]
  cases n with
  | zero => rfl
  | succ m => simp [clearsUsed, frameClearStep, hbg]

/-! ## Quad geometry (src/main.c 240-255)

`scale`, `xpos`, `ypos`, `w`, `h` and the six-vertex array from `main`,
parametrized by the glyph's pixel width and height (floats modelled as
rationals). -/

def quadScale : ℚ := 1/10

def quadXpos (width : ℚ) : ℚ := -(width * quadScale) / 2

def quadYpos (height : ℚ) : ℚ := -(height * quadScale) / 2

def quadW (width : ℚ) : ℚ := width * quadScale

def quadH (height : ℚ) : ℚ := height * quadScale

/-- The `vertices[6][4]` array: (x, y, u, v) per vertex. -/
def quadVertices (width height : ℚ) : List (ℚ × ℚ × ℚ × ℚ) :=
  let xpos := quadXpos width
  let ypos := quadYpos height
  let w := quadW width
  let h := quadH height
  [ (xpos,     ypos + h, 0, 0),
    (xpos,     ypos,     0, 1),
    (xpos + w, ypos,     1, 1),
    (xpos,     ypos + h, 0, 0),
    (xpos + w, ypos,     1, 1),
    (xpos + w, ypos + h, 1, 0) ]

/-- C3: for a 12×18-pixel glyph at scale 0.1, the computed quad has
w = 1.2, h = 1.8, xpos = -0.6, ypos = -0.9, and the six vertices span
exactly x ∈ [-0.6, 0.6] and y ∈ [-0.9, 0.9], both endpoints attained. -/
theorem quad_12_18_centered :
    quadW 12 = 6/5 ∧ quadH 18 = 9/5 ∧
      quadXpos 12 = -(3/5) ∧ quadYpos 18 = -(9/10) ∧
      (∀ v ∈ quadVertices 12 18, -(3/5) ≤ v.1 ∧ v.1 ≤ 3/5) ∧
      (∃ v ∈ quadVertices 12 18, v.1 = -(3/5)) ∧
      (∃ v ∈ quadVertices 12 18, v.1 = 3/5) ∧
      (∀ v ∈ quadVertices 12 18, -(9/10) ≤ v.2.1 ∧ v.2.1 ≤ 9/10) ∧
      (∃ v ∈ quadVertices 12 18, v.2.1 = -(9/10)) ∧
      (∃ v ∈ quadVertices 12 18, v.2.1 = 9/10) := by
  norm_num [quadVertices, quadW, quadH, quadXpos, quadYpos, quadScale]

/-! ## cglm matrix helpers (used at src/main.c 270-278)

The program computes its MVP through cglm's header-only helpers; these are
translated from cglm (`glm_ortho`, `glm_ortho_default` in cam.h,
`glm_translate` in affine.h, `glm_mat4_mul` in mat4.h).  cglm stores
matrices column-major (`dest[col][row]`); here `Mat4` is written in
mathematical row/column convention, so cglm's `dest[c][r]` is entry
`(r, c)`. -/

abbrev Mat4 := Matrix (Fin 4) (Fin 4) ℚ

/-- cglm `glm_ortho(left, right, bottom, top, nearZ, farZ, dest)`. -/
def glm_ortho (left right bottom top nearZ farZ : ℚ) : Mat4 :=
  let rl := 1 / (right - left)
  let tb := 1 / (top - bottom)
  let fn := -1 / (farZ - nearZ)
  Matrix.of
    ![![2 * rl, 0,      0,      -(right + left) * rl],
      ![0,      2 * tb, 0,      -(top + bottom) * tb],
      ![0,      0,      2 * fn, (farZ + nearZ) * fn],
      ![0,      0,      0,      1]]

/-- cglm `glm_ortho_default(aspect, dest)`: the unit orthographic
projection; for aspect ≥ 1 the horizontal range is [-aspect, aspect] and
the vertical range [-1, 1], otherwise the horizontal range is [-1, 1] and
the vertical range [-1/aspect, 1/aspect]. -/
def glm_ortho_default (aspect : ℚ) : Mat4 :=
  if 1 ≤ aspect then
    glm_ortho (-1 * aspect) (1 * aspect) (-1) 1 (-100) 100
  else
    glm_ortho (-1) 1 (-1 / aspect) (1 / aspect) (-100) 100

/-- cglm `glm_translate(m, v)`: post-multiply by the translation `v`,
in place — column 3 becomes `m[3] + m[0]*v.x + m[1]*v.y + m[2]*v.z`. -/
def glm_translate (m : Mat4) (v : ℚ × ℚ × ℚ) : Mat4 :=
  Matrix.of fun i j =>
    if j = 3 then m i 3 + m i 0 * v.1 + m i 1 * v.2.1 + m i 2 * v.2.2
    else m i j

/-- cglm `glm_mat4_mul(m1, m2, dest)`: `dest = m1 * m2`. -/
def glm_mat4_mul (m1 m2 : Mat4) : Mat4 := m1 * m2

/-- Width of the orthographic viewing volume encoded in a projection
matrix: `right - left = 2 / m₀₀`. -/
def hExtent (m : Mat4) : ℚ := 2 / m 0 0

/-- Height of the orthographic viewing volume: `top - bottom = 2 / m₁₁`. -/
def vExtent (m : Mat4) : ℚ := 2 / m 1 1

/-- C5 counterexample: at the aspect ratios 1/2 and 1/4 (framebuffers
narrower than tall, e.g. 240×480 and 120×480) the horizontal extents are
both 2 — their ratio is 1, not (1/2)/(1/4) = 2 — and the vertical extents
are 4 and 8, not equal: `glm_ortho_default` fixes the horizontal extent
and scales the vertical one when aspect < 1. -/
theorem ortho_extent_claim_fails :
    ¬(hExtent (glm_ortho_default (1/2)) / hExtent (glm_ortho_default (1/4)) =
          (1/2 : ℚ) / (1/4) ∧
        vExtent (glm_ortho_default (1/2)) = vExtent (glm_ortho_default (1/4))) := by
  have ha : ¬((1 : ℚ) ≤ 1/2) := by norm_num
  have hb : ¬((1 : ℚ) ≤ 1/4) := by norm_num
  rw [glm_ortho_default, if_neg ha, glm_ortho_default, if_neg hb]
  intro h
  obtain ⟨h1, h2⟩ := h
  norm_num [hExtent, vExtent, glm_ortho, Matrix.cons_val_zero,
    Matrix.cons_val_one, Matrix.head_cons] at h1 h2

/-- C5 amended: for aspect ratios at least 1 (framebuffer at least as wide
as tall — the program's 640×480 window included), the horizontal extent of
`glm_ortho_default` scales linearly with the aspect ratio (the extents'
ratio is a1/a2) and the vertical extent is independent of it. -/
theorem ortho_extent_aspect_ge_one (a1 a2 : ℚ) (h1 : 1 ≤ a1) (h2 : 1 ≤ a2) :
    hExtent (glm_ortho_default a1) / hExtent (glm_ortho_default a2) = a1 / a2 ∧
      vExtent (glm_ortho_default a1) = vExtent (glm_ortho_default a2) := by
  have h1' : a1 ≠ 0 := by positivity
  have h2' : a2 ≠ 0 := by positivity
  rw [glm_ortho_default, if_pos h1, glm_ortho_default, if_pos h2]
  constructor
  · simp only [hExtent, glm_ortho, Matrix.of_apply, Matrix.cons_val_zero,
      Matrix.cons_val', Matrix.head_cons, Matrix.head_fin_const]
    field_simp
    ring
  · simp only [vExtent, glm_ortho, Matrix.of_apply, Matrix.cons_val_one,
      Matrix.head_cons, Matrix.cons_val', Matrix.cons_val_zero,
      Matrix.head_fin_const]

/-- Witness for `ortho_extent_aspect_ge_one` at the aspect ratios 2 and
4/3 (the 640×480 framebuffer). -/
theorem ortho_extent_aspect_ge_one_witness :
    ((1 : ℚ) ≤ 2 ∧ (1 : ℚ) ≤ 4/3) ∧
      (hExtent (glm_ortho_default 2) / hExtent (glm_ortho_default (4/3)) =
          (2 : ℚ) / (4/3) ∧
        vExtent (glm_ortho_default 2) = vExtent (glm_ortho_default (4/3))) :=
  ⟨⟨by norm_num, by norm_num⟩,
    ortho_extent_aspect_ge_one 2 (4/3) (by norm_num) (by norm_num)⟩

/-- C6: translating the identity matrix by the zero vector is a no-op, so
the MVP computed by `glm_mat4_mul(p, m, mvp)` equals the projection matrix
`p` alone. -/
theorem mvp_equals_projection :
    glm_translate (1 : Mat4) (0, 0, 0) = 1 ∧
      ∀ p : Mat4, glm_mat4_mul p (glm_translate 1 (0, 0, 0)) = p := by
  have hm : glm_translate (1 : Mat4) (0, 0, 0) = 1 := by
    ext i j
    by_cases h : j = 3
    · subst h; simp [glm_translate]
    · simp [glm_translate, h]
  refine ⟨hm, fun p => ?_⟩
  show p * glm_translate 1 (0, 0, 0) = p
  rw [hm, mul_one]

end Fontgl
